import Mathlib

/-!
Verification development for the IP-Chat network subsystem
(src-tauri/src: models.rs, error.rs, file_transfer.rs, discovery.rs,
connection_manager.rs, chat.rs, lib.rs).

The Rust code is shallowly embedded: each manager's shared mutable state
becomes an explicit value threaded through the operations, machine
integers become Nat (with explicit wrap-around where the code relies on
it), fallible operations return an error component, and sources of
nondeterminism (network dial and write outcomes, chunk sizes delivered
by reads) become explicit parameters.
-/

/-! ## Data model (models.rs) -/

/-- models.rs `User`: id, display name, IP, last-seen timestamp.
Timestamps are modelled as Nat. -/
structure User where
  id : String
  name : String
  ip : String
  last_seen : Nat
  deriving Repr, DecidableEq

/-- models.rs `Message`: id, sender, recipient, content, timestamp, read flag. -/
structure Message where
  id : String
  sender_id : String
  recipient_id : String
  content : String
  timestamp : Nat
  read : Bool
  deriving Repr, DecidableEq

/-- models.rs `TransferStatus`. -/
inductive TransferStatus where
  | Pending
  | InProgress
  | Completed
  | Rejected
  | Cancelled
  | Failed
  deriving Repr, DecidableEq

/-- models.rs `FileTransfer`. `file_size` and `bytes_transferred` are u64 in the
source; byte counts stay far below 2^64 here, so they are modelled as Nat. -/
structure FileTransfer where
  id : String
  sender_id : String
  recipient_id : String
  sender_ip : Option String
  recipient_ip : Option String
  file_name : String
  file_size : Nat
  source_path : Option String
  destination_path : Option String
  status : TransferStatus
  bytes_transferred : Nat
  timestamp : Nat
  error : Option String
  deriving Repr, DecidableEq

/-- error.rs `AppError`. `IoError` and `SerializationError` wrap foreign error
types in the source; here they carry the rendered message. -/
inductive AppError where
  | DiscoveryError (msg : String)
  | ChatError (msg : String)
  | FileTransferError (msg : String)
  | NetworkError (msg : String)
  | IoError (msg : String)
  | SerializationError (msg : String)
  | MdnsError (msg : String)
  | UserNotFound (ident : String)
  | FileNotFound (path : String)
  | TransferNotFound (ident : String)
  | InvalidOperation (msg : String)
  | Other (msg : String)
  deriving Repr, DecidableEq

/-- Events emitted to the UI through `emit_event` (lib.rs). Only the events the
claims mention are modelled; an emission becomes an element of an event list. -/
inductive UIEvent where
  | message_received (m : Message)
  | message_sent (m : Message)
  | messages_read (peer_id : String)
  deriving Repr, DecidableEq

/-! ## Shared-map embedding

Every manager guards a `HashMap<String, _>` behind a mutex.  A map is embedded
as an association list with the keys kept unique by construction; `lookupKey`,
`updateKey` (the effect of `get_mut` plus in-place mutation), `insertKey`
(`insert`) and `removeKey` (`remove`) mirror the HashMap operations used. -/

def lookupKey {α : Type} : List (String × α) → String → Option α
  | [], _ => none
  | (k', v) :: rest, k => if k' = k then some v else lookupKey rest k

def updateKey {α : Type} : List (String × α) → String → (α → α) → List (String × α)
  | [], _, _ => []
  | (k', v) :: rest, k, f =>
      if k' = k then (k', f v) :: rest else (k', v) :: updateKey rest k f

def insertKey {α : Type} : List (String × α) → String → α → List (String × α)
  | [], k, v => [(k, v)]
  | (k', v') :: rest, k, v =>
      if k' = k then (k', v) :: rest else (k', v') :: insertKey rest k v

def removeKey {α : Type} : List (String × α) → String → List (String × α)
  | [], _ => []
  | (k', v) :: rest, k => if k' = k then rest else (k', v) :: removeKey rest k

/-! ## File transfer engine (file_transfer.rs) -/

/-- The transfer map guarded by `FileTransferManager.transfers`. -/
abbrev TransferMap := List (String × FileTransfer)

/-- Embeds `FileTransferManager::accept_transfer` (file_transfer.rs 233-252):
look the transfer up (`TransferNotFound` when absent), set its status to
`InProgress` and its destination path to the given save path, and return the
updated record (the clone handed to `start_file_transfer`). -/
def accept_transfer (m : TransferMap) (transfer_id save_path : String) :
    TransferMap × Except AppError FileTransfer :=
  match lookupKey m transfer_id with
  | none => (m, .error (.TransferNotFound transfer_id))
  | some t =>
      let t' := { t with status := .InProgress, destination_path := some save_path }
      (updateKey m transfer_id fun _ => t', .ok t')

/-- Embeds `FileTransferManager::reject_transfer` (file_transfer.rs 255-273):
look the transfer up, set its status to `Rejected`, return the clone. -/
def reject_transfer (m : TransferMap) (transfer_id : String) :
    TransferMap × Except AppError FileTransfer :=
  match lookupKey m transfer_id with
  | none => (m, .error (.TransferNotFound transfer_id))
  | some t =>
      let t' := { t with status := TransferStatus.Rejected }
      (updateKey m transfer_id fun _ => t', .ok t')

/-- Embeds `FileTransferManager::cancel_transfer` (file_transfer.rs 276-294):
look the transfer up, set its status to `Cancelled`, return the clone. -/
def cancel_transfer (m : TransferMap) (transfer_id : String) :
    TransferMap × Except AppError FileTransfer :=
  match lookupKey m transfer_id with
  | none => (m, .error (.TransferNotFound transfer_id))
  | some t =>
      let t' := { t with status := TransferStatus.Cancelled }
      (updateKey m transfer_id fun _ => t', .ok t')

/-- The per-chunk record update shared by `send_file_data` (file_transfer.rs
438-447), `receive_file_data` (516-525) and `handle_file_connection`: set
`bytes_transferred` to the running total and, when the total has reached
`file_size` (the source compares with `>=`), set the status to `Completed`. -/
def applyChunkProgress (total : Nat) (t : FileTransfer) : FileTransfer :=
  let t1 := { t with bytes_transferred := total }
  if t1.file_size ≤ total then { t1 with status := TransferStatus.Completed } else t1

/-- The progress update applied to the transfer map under the lock: the effect
of `get_mut` followed by `applyChunkProgress` on the entry, when present. -/
def chunkProgressUpdate (m : TransferMap) (transfer_id : String) (total : Nat) :
    TransferMap :=
  updateKey m transfer_id (applyChunkProgress total)

/-- The chunk loop of `send_file_data` / `receive_file_data`: `sent` is the
running byte total and `chunks` the successive sizes returned by the reads;
a read of size 0 ends the loop, every other chunk is followed by a progress
update on the transfer map. -/
def runChunkLoop (m : TransferMap) (transfer_id : String) (sent : Nat) :
    List Nat → TransferMap
  | [] => m
  | c :: cs =>
      if c = 0 then m
      else runChunkLoop (chunkProgressUpdate m transfer_id (sent + c)) transfer_id
        (sent + c) cs

/-! ## Network discovery (discovery.rs) -/

/-- The mutable state of `NetworkDiscovery`: the peer directory, whether a
daemon handle / stop channel is held, the running flag, and whether the mDNS
service registration succeeded. -/
structure DiscoveryState where
  peers : List (String × User)
  daemon : Bool
  is_running : Bool
  stop_tx : Bool
  service_registered : Bool
  deriving Repr, DecidableEq

/-- Environment outcomes consumed by `start_discovery`: whether daemon creation
(after the internal retries), `ServiceInfo::new`, `register`, and `browse`
succeed. -/
structure DiscoveryEnv where
  daemon_ok : Bool
  service_info_ok : Bool
  register_ok : Bool
  browse_ok : Bool
  deriving Repr, DecidableEq

/-- Embeds `NetworkDiscovery::start_discovery` (discovery.rs 130-366).  It
first checks the running flag and fails with `DiscoveryError` without touching
anything else; then creates the daemon, service info, registration (which sets
`service_registered`), and the browse handle, finally setting the running flag
and storing the daemon and stop channel.  Returns the state together with the
error, if any. -/
def start_discovery (env : DiscoveryEnv) (s : DiscoveryState) :
    DiscoveryState × Option AppError :=
  if s.is_running then
    (s, some (.DiscoveryError "Discovery already running"))
  else if env.daemon_ok = false then
    (s, some (.MdnsError "Failed to create mDNS daemon"))
  else if env.service_info_ok = false then
    (s, some (.MdnsError "Failed to create service info"))
  else if env.register_ok = false then
    (s, some (.MdnsError "Failed to register service"))
  else
    let s1 := { s with service_registered := true }
    if env.browse_ok = false then
      (s1, some (.MdnsError "Failed to browse for services"))
    else
      ({ s1 with is_running := true, daemon := true, stop_tx := true }, none)

/-- Embeds `NetworkDiscovery::stop_discovery` (discovery.rs 369-449).  When the
running flag is clear it returns success immediately, leaving the state alone.
Otherwise it clears the running flag, takes the stop channel and the daemon,
unregisters the service when it was registered (clearing the flag whether or
not unregistration succeeds), and clears the peer directory. -/
def stop_discovery (s : DiscoveryState) : DiscoveryState × Option AppError :=
  if s.is_running = false then
    (s, none)
  else
    let s1 := { s with is_running := false, stop_tx := false }
    let s2 :=
      if s1.daemon then { s1 with daemon := false, service_registered := false } else s1
    ({ s2 with peers := [] }, none)

/-! ## Connection manager (connection_manager.rs) -/

/-- connection_manager.rs `PeerConnection`: the stream handle is dropped from
the embedding, the remote address becomes a string, `last_activity` an abstract
instant (Nat), plus the active flag. -/
structure PeerConnection where
  peer_id : String
  peer_addr : String
  last_activity : Nat
  is_active : Bool
  deriving Repr, DecidableEq

/-- The map guarded by `ConnectionManager.connections`. -/
abbrev ConnectionMap := List (String × PeerConnection)

/-- Outcome of a `TcpStream::connect` guarded by `timeout` (10 s). -/
inductive DialOutcome where
  | success
  | failure (msg : String)
  | timeout
  deriving Repr, DecidableEq

/-- Outcome of the framed `write_all` + `flush` guarded by `timeout` (10 s). -/
inductive WriteOutcome where
  | success
  | failure (msg : String)
  | timeout
  deriving Repr, DecidableEq

/-- Environment outcomes consumed by `get_or_create_connection` and
`send_message`: whether the address string parses, the dial outcome, and the
write outcome. -/
structure ConnEnv where
  addr_ok : Bool
  dial : DialOutcome
  write : WriteOutcome
  deriving Repr, DecidableEq

/-- `CONNECTION_IDLE_TIMEOUT` is 300 seconds. -/
def CONNECTION_IDLE_TIMEOUT : Nat := 300

/-- `PeerConnection::is_idle` at instant `now`: elapsed time since the last
activity exceeds the idle timeout. -/
def connectionIsIdle (now : Nat) (c : PeerConnection) : Bool :=
  CONNECTION_IDLE_TIMEOUT < now - c.last_activity

/-- The reuse test of `get_or_create_connection` (connection_manager.rs
159-169): an entry exists and is active and not idle. -/
def reusableConnection (now : Nat) (m : ConnectionMap) (peer_id : String) : Bool :=
  match lookupKey m peer_id with
  | some c => c.is_active && !connectionIsIdle now c
  | none => false

/-- The fresh-dial path of `get_or_create_connection` (connection_manager.rs
171-197): parse the address, dial with a 10 s timeout, and on success insert a
fresh connection (active, last-activity = now).  Parse and dial errors and the
dial timeout return `NetworkError` without touching the map. -/
def dialFreshConnection (env : ConnEnv) (now : Nat) (m : ConnectionMap)
    (peer_id peer_ip : String) (port : Nat) :
    ConnectionMap × Except AppError PeerConnection :=
  if env.addr_ok = false then
    (m, .error (.NetworkError "Invalid address"))
  else
    match env.dial with
    | .success =>
        let c : PeerConnection :=
          { peer_id := peer_id, peer_addr := peer_ip ++ ":" ++ toString port,
            last_activity := now, is_active := true }
        (insertKey m peer_id c, .ok c)
    | .failure e => (m, .error (.NetworkError ("Connection failed: " ++ e)))
    | .timeout => (m, .error (.NetworkError "Connection timeout"))

/-- Embeds `ConnectionManager::get_or_create_connection` (connection_manager.rs
157-198): reuse an active, non-idle cached entry; otherwise take the
fresh-dial path. -/
def get_or_create_connection (env : ConnEnv) (now : Nat) (m : ConnectionMap)
    (peer_id peer_ip : String) (port : Nat) :
    ConnectionMap × Except AppError PeerConnection :=
  match lookupKey m peer_id with
  | some c =>
      if c.is_active && !connectionIsIdle now c then (m, .ok c)
      else dialFreshConnection env now m peer_id peer_ip port
  | none => dialFreshConnection env now m peer_id peer_ip port

/-- Embeds `ConnectionManager::send_message` (connection_manager.rs 200-241):
obtain a connection via `get_or_create_connection` (propagating its error),
then write the framed envelope under a 10 s timeout.  Success refreshes the
connection's last-activity; a write failure or timeout marks the connection
inactive (`set_inactive`, visible through the shared handle in the map),
removes the entry (`remove_connection`), and returns the send-failed
`NetworkError`. -/
def send_message (env : ConnEnv) (now : Nat) (m : ConnectionMap)
    (peer_id : String) (msg : Message) (peer_ip : String) (port : Nat) :
    ConnectionMap × Except AppError Unit :=
  match get_or_create_connection env now m peer_id peer_ip port with
  | (m1, .error e) => (m1, .error e)
  | (m1, .ok _) =>
      match env.write with
      | .success =>
          (updateKey m1 peer_id (fun c => { c with last_activity := now }), .ok ())
      | .failure e =>
          let m2 := updateKey m1 peer_id fun c => { c with is_active := false }
          (removeKey m2 peer_id, .error (.NetworkError ("Message send failed: " ++ e)))
      | .timeout =>
          let m2 := updateKey m1 peer_id fun c => { c with is_active := false }
          (removeKey m2 peer_id, .error (.NetworkError "Message send timeout"))

/-- Embeds `ConnectionManager::handle_received_message` (connection_manager.rs
350-361), the `message` arm of the inbound dispatcher: a message whose
recipient is not the local user is dropped with success; otherwise the
`message_received` event is emitted.  The `ConnectionManager` of
connection_manager.rs holds no message store, so neither branch writes one. -/
def handle_received_message (local_id : String) (msg : Message) :
    List UIEvent × Except AppError Unit :=
  if msg.recipient_id ≠ local_id then ([], .ok ())
  else ([.message_received msg], .ok ())

/-! ## Chat channel (chat.rs, lib.rs) -/

/-- The per-conversation message store guarded by `ChatManager.messages`:
conversation-partner id (or the local user id for the send history) to the
insertion-ordered list of messages. -/
abbrev MessageStore := List (String × List Message)

/-- A bucket read: the list under a key, empty when the key is absent. -/
def getBucketD (s : MessageStore) (k : String) : List Message :=
  (lookupKey s k).getD []

/-- `messages.entry(k).or_default().push(msg)`: append to the existing bucket,
or create the bucket with the single message. -/
def pushBucket (s : MessageStore) (k : String) (msg : Message) : MessageStore :=
  match lookupKey s k with
  | some _ => updateKey s k fun l => l ++ [msg]
  | none => s ++ [(k, [msg])]

/-- Embeds `ChatManager::store_sent_message` (chat.rs 286-292): push the
message into the local-user-id bucket; always succeeds. -/
def store_sent_message (local_id : String) (s : MessageStore) (msg : Message) :
    MessageStore × Except AppError Unit :=
  (pushBucket s local_id msg, .ok ())

/-- Embeds `ChatManager::send_message_with_peer_ip` (chat.rs 128-169) after the
message value has been constructed: store the message in the local-user-id
bucket, then attempt the network send (`send_message_to_peer`), whose outcome
is the `net` parameter; a network error is propagated while the stored copy
stays. -/
def send_message_with_peer_ip (local_id : String) (s : MessageStore)
    (msg : Message) (net : Except AppError Unit) :
    MessageStore × Except AppError Message :=
  let s1 := pushBucket s local_id msg
  match net with
  | .ok _ => (s1, .ok msg)
  | .error e => (s1, .error e)

/-- Embeds the `send_message` command (lib.rs 190-223), peer-found branch,
after the message value has been constructed: store the message locally first
via `store_sent_message`, then send via the connection manager; on success emit
`message_sent` and return the message, on failure return the error and emit
nothing. -/
def send_message_command (local_id : String) (s : MessageStore) (msg : Message)
    (net : Except AppError Unit) :
    MessageStore × List UIEvent × Except AppError Message :=
  let s1 := (store_sent_message local_id s msg).1
  match net with
  | .ok _ => (s1, [.message_sent msg], .ok msg)
  | .error e => (s1, [], .error e)

/-- Embeds `ChatManager::get_messages_for_peer` (chat.rs 242-269): collect the
local-user-id bucket entries addressed to the peer, then the peer bucket
entries addressed to the local user, and sort the concatenation by timestamp
(the source uses the stable `sort_by` on `timestamp`). -/
def get_messages_for_peer (local_id : String) (s : MessageStore)
    (peer_id : String) : List Message :=
  let sent := (getBucketD s local_id).filter fun msg =>
    decide (msg.recipient_id = peer_id)
  let received := (getBucketD s peer_id).filter fun msg =>
    decide (msg.recipient_id = local_id)
  (sent ++ received).mergeSort fun a b => decide (a.timestamp ≤ b.timestamp)

/-- Embeds `ChatManager::mark_messages_as_read` (chat.rs 295-309): in the
peer-id bucket, when it exists, set the read flag on every message addressed to
the local user; always returns success. -/
def mark_messages_as_read (local_id : String) (s : MessageStore)
    (peer_id : String) : MessageStore × Except AppError Unit :=
  (updateKey s peer_id fun msgs =>
      msgs.map fun m =>
        if m.recipient_id = local_id then { m with read := true } else m,
   .ok ())

/-- The incoming-message step of the running system: the chat service routes
accepted streams into `ConnectionManager::handle_incoming_connection`
(chat.rs 75-81), whose `message` arm calls `handle_received_message`; that
dispatcher has no access to the chat message store, so the store component is
untouched. -/
def incoming_message_step (local_id : String) (store : MessageStore)
    (msg : Message) : MessageStore × List UIEvent × Except AppError Unit :=
  let r := handle_received_message local_id msg
  (store, r.1, r.2)

/-! ## Local peer id (lib.rs `generate_user_id`)

`generate_user_id` feeds the hostname through std's `DefaultHasher`, which is
SipHash-1-3 with both keys zero; `Hash for str` writes the UTF-8 bytes followed
by a single 0xff length-terminator byte.  The 64-bit hash is masked to its low
32 bits and rendered in lowercase hexadecimal after the fixed prefix.  The
hasher is embedded concretely so the id is an executable function of the
hostname bytes. -/

/-- Wrap to 64 bits. -/
def wrap64 (x : Nat) : Nat := x % 18446744073709551616

/-- 64-bit rotate left. -/
def rotl64 (x r : Nat) : Nat := ((x <<< r) ||| (x >>> (64 - r))) % 18446744073709551616

/-- The four SipHash state words. -/
structure SipState where
  v0 : Nat
  v1 : Nat
  v2 : Nat
  v3 : Nat
  deriving Repr, DecidableEq

/-- One SipHash round. -/
def sipRound (s : SipState) : SipState :=
  let v0 := wrap64 (s.v0 + s.v1)
  let v1 := rotl64 s.v1 13
  let v1 := v1 ^^^ v0
  let v0 := rotl64 v0 32
  let v2 := wrap64 (s.v2 + s.v3)
  let v3 := rotl64 s.v3 16
  let v3 := v3 ^^^ v2
  let v0 := wrap64 (v0 + v3)
  let v3 := rotl64 v3 21
  let v3 := v3 ^^^ v0
  let v2 := wrap64 (v2 + v1)
  let v1 := rotl64 v1 17
  let v1 := v1 ^^^ v2
  let v2 := rotl64 v2 32
  ⟨v0, v1, v2, v3⟩

/-- Absorb one 64-bit message word with the single compression round of
SipHash-1-3. -/
def sipCompress (s : SipState) (m : Nat) : SipState :=
  let s1 := sipRound { s with v3 := s.v3 ^^^ m }
  { s1 with v0 := s1.v0 ^^^ m }

/-- Little-endian value of a byte list. -/
def le64 : List Nat → Nat
  | [] => 0
  | b :: bs => b + 256 * le64 bs

/-- Split a byte list into full 8-byte little-endian words and the tail. -/
def toBlocks : List Nat → List Nat × List Nat
  | b0 :: b1 :: b2 :: b3 :: b4 :: b5 :: b6 :: b7 :: rest =>
      let p := toBlocks rest
      (le64 [b0, b1, b2, b3, b4, b5, b6, b7] :: p.1, p.2)
  | rest => ([], rest)

/-- SipHash finalization: absorb the length-and-tail word, xor 0xff into `v2`,
run the three finalization rounds, and fold the state words together. -/
def sipFinish (len : Nat) (tail : List Nat) (s : SipState) : Nat :=
  let b := wrap64 (le64 tail + (len % 256) * 72057594037927936)
  let s1 := sipCompress s b
  let s2 := { s1 with v2 := s1.v2 ^^^ 255 }
  let s3 := sipRound (sipRound (sipRound s2))
  s3.v0 ^^^ s3.v1 ^^^ s3.v2 ^^^ s3.v3

/-- SipHash-1-3 of a byte list under a 128-bit key given as two 64-bit words. -/
def siphash13 (k0 k1 : Nat) (data : List Nat) : Nat :=
  let init : SipState :=
    ⟨8317987319222330741 ^^^ k0, 7237128888997146477 ^^^ k1,
     7816392313619706465 ^^^ k0, 8387220255154660723 ^^^ k1⟩
  let p := toBlocks data
  sipFinish data.length p.2 (p.1.foldl sipCompress init)

/-- `DefaultHasher::finish` over the byte stream written into it: SipHash-1-3
with both keys zero. -/
def defaultHasherFinish (bytes : List Nat) : Nat := siphash13 0 0 bytes

/-- `Hash for str`: write the UTF-8 bytes, then the 0xff terminator byte. -/
def hashStrBytes (host : List Nat) : List Nat := host ++ [255]

/-- Lowercase hexadecimal digits of `n`, most significant first, empty for 0;
the fuel argument only bounds the recursion depth and `n` itself is always
enough of it. -/
def hexDigitsAux : Nat → Nat → List Char
  | 0, _ => []
  | fuel + 1, n =>
      if n = 0 then [] else hexDigitsAux fuel (n / 16) ++ [Nat.digitChar (n % 16)]

/-- The rendering of the format specifier `:x` on a u64: minimal lowercase
hexadecimal digits, with 0 rendered as "0". -/
def hexString (n : Nat) : String :=
  if n = 0 then "0" else String.mk (hexDigitsAux n n)

/-- Embeds `generate_user_id` (lib.rs 413-421) as a function of the hostname's
UTF-8 bytes: hash the hostname with `DefaultHasher`, keep the low 32 bits, and
render the value as `user-` followed by its hexadecimal digits. -/
def generate_user_id (hostname : List Nat) : String :=
  let hash := defaultHasherFinish (hashStrBytes hostname)
  "user-" ++ hexString (hash &&& 4294967295)

/-! ## Map lemmas -/

theorem lookupKey_updateKey_self {α : Type} (m : List (String × α)) (k : String)
    (f : α → α) : lookupKey (updateKey m k f) k = (lookupKey m k).map f := by
  induction m with
  | nil => rfl
  | cons kv rest ih =>
      obtain ⟨k', v⟩ := kv
      by_cases h : k' = k <;> simp [lookupKey, updateKey, h, ih]

theorem lookupKey_updateKey_ne {α : Type} (m : List (String × α)) (k k' : String)
    (f : α → α) (h : k' ≠ k) : lookupKey (updateKey m k f) k' = lookupKey m k' := by
  induction m with
  | nil => rfl
  | cons kv rest ih =>
      obtain ⟨k0, v⟩ := kv
      by_cases h0 : k0 = k
      · subst h0
        simp [lookupKey, updateKey, Ne.symm h]
      · by_cases h1 : k0 = k' <;> simp [lookupKey, updateKey, h0, h1, h, ih]

theorem updateKey_map_fst {α : Type} (m : List (String × α)) (k : String)
    (f : α → α) : (updateKey m k f).map Prod.fst = m.map Prod.fst := by
  induction m with
  | nil => rfl
  | cons kv rest ih =>
      obtain ⟨k0, v⟩ := kv
      by_cases h : k0 = k <;> simp [updateKey, h, ih]

theorem updateKey_of_lookupKey_none {α : Type} (m : List (String × α)) (k : String)
    (f : α → α) (h : lookupKey m k = none) : updateKey m k f = m := by
  induction m with
  | nil => rfl
  | cons kv rest ih =>
      obtain ⟨k0, v⟩ := kv
      by_cases h0 : k0 = k
      · simp [lookupKey, h0] at h
      · simp [lookupKey, h0] at h
        simp [updateKey, h0, ih h]

theorem updateKey_updateKey {α : Type} (m : List (String × α)) (k : String)
    (f g : α → α) : updateKey (updateKey m k f) k g = updateKey m k (fun v => g (f v)) := by
  induction m with
  | nil => rfl
  | cons kv rest ih =>
      obtain ⟨k0, v⟩ := kv
      by_cases h : k0 = k <;> simp [updateKey, h, ih]

theorem lookupKey_append_of_none {α : Type} (s t : List (String × α)) (k : String)
    (h : lookupKey s k = none) : lookupKey (s ++ t) k = lookupKey t k := by
  induction s with
  | nil => rfl
  | cons kv rest ih =>
      obtain ⟨k0, v⟩ := kv
      by_cases h0 : k0 = k
      · simp [lookupKey, h0] at h
      · simp [lookupKey, h0] at h ⊢
        exact ih h

/-! ## Chunk-loop lemmas -/

theorem applyChunkProgress_file_size (total : Nat) (t : FileTransfer) :
    (applyChunkProgress total t).file_size = t.file_size := by
  by_cases h : t.file_size ≤ total <;> simp [applyChunkProgress, h]

theorem applyChunkProgress_bytes (total : Nat) (t : FileTransfer) :
    (applyChunkProgress total t).bytes_transferred = total := by
  by_cases h : t.file_size ≤ total <;> simp [applyChunkProgress, h]

theorem applyChunkProgress_status_of_le (total : Nat) (t : FileTransfer)
    (h : t.file_size ≤ total) :
    (applyChunkProgress total t).status = TransferStatus.Completed := by
  simp [applyChunkProgress, h]

theorem applyChunkProgress_status_of_lt (total : Nat) (t : FileTransfer)
    (h : total < t.file_size) : (applyChunkProgress total t).status = t.status := by
  simp [applyChunkProgress, Nat.not_le.mpr h]

theorem runChunkLoop_invariant (tid : String) (cs : List Nat) :
    ∀ (m : TransferMap) (t : FileTransfer) (sent : Nat),
      lookupKey m tid = some t →
      t.bytes_transferred = sent →
      (t.status = TransferStatus.Completed → sent = t.file_size) →
      sent + cs.sum ≤ t.file_size →
      ∃ t', lookupKey (runChunkLoop m tid sent cs) tid = some t' ∧
        t'.file_size = t.file_size ∧
        t'.bytes_transferred ≤ t'.file_size ∧
        (t'.status = TransferStatus.Completed →
          t'.bytes_transferred = t'.file_size) := by
  induction cs with
  | nil =>
      intro m t sent hlook hbytes hcomp hsum
      simp only [List.sum_nil, Nat.add_zero] at hsum
      refine ⟨t, hlook, rfl, by omega, ?_⟩
      intro h
      rw [hbytes]
      exact hcomp h
  | cons c cs ih =>
      intro m t sent hlook hbytes hcomp hsum
      simp only [List.sum_cons] at hsum
      by_cases hc : c = 0
      · subst hc
        simp only [runChunkLoop, if_pos rfl]
        refine ⟨t, hlook, rfl, by omega, ?_⟩
        intro h
        rw [hbytes]
        exact hcomp h
      · simp only [runChunkLoop, if_neg hc]
        have hcpos : 0 < c := Nat.pos_of_ne_zero hc
        have hlook' :
            lookupKey (chunkProgressUpdate m tid (sent + c)) tid =
              some (applyChunkProgress (sent + c) t) := by
          rw [chunkProgressUpdate, lookupKey_updateKey_self, hlook]
          rfl
        have hfs := applyChunkProgress_file_size (sent + c) t
        have hcomp' :
            (applyChunkProgress (sent + c) t).status = TransferStatus.Completed →
              sent + c = (applyChunkProgress (sent + c) t).file_size := by
          intro h
          rw [hfs]
          by_cases hle : t.file_size ≤ sent + c
          · omega
          · rw [applyChunkProgress_status_of_lt (sent + c) t (by omega)] at h
            have := hcomp h
            omega
        obtain ⟨t', h1, h2, h3, h4⟩ :=
          ih (chunkProgressUpdate m tid (sent + c)) (applyChunkProgress (sent + c) t)
            (sent + c) hlook' (applyChunkProgress_bytes (sent + c) t) hcomp'
            (by rw [hfs]; omega)
        exact ⟨t', h1, by rw [h2, hfs], h3, h4⟩

/-! ## Chat-store lemmas -/

theorem getBucketD_pushBucket_self (s : MessageStore) (k : String) (msg : Message) :
    getBucketD (pushBucket s k msg) k = getBucketD s k ++ [msg] := by
  unfold pushBucket getBucketD
  cases h : lookupKey s k with
  | some l => simp [lookupKey_updateKey_self, h]
  | none => simp [lookupKey_append_of_none s _ k h, h, lookupKey]

/-! ## Hexadecimal rendering lemmas -/

theorem hexDigitsAux_length_le (fuel : Nat) :
    ∀ (n k : Nat), n < 16 ^ k → (hexDigitsAux fuel n).length ≤ k := by
  induction fuel with
  | zero => intro n k _; simp [hexDigitsAux]
  | succ fuel ih =>
      intro n k hn
      by_cases h : n = 0
      · simp [hexDigitsAux, h]
      · cases k with
        | zero =>
            simp only [pow_zero, Nat.lt_one_iff] at hn
            exact absurd hn h
        | succ k =>
            simp only [hexDigitsAux, if_neg h, List.length_append, List.length_cons,
              List.length_nil]
            have hdiv : n / 16 < 16 ^ k := by
              apply Nat.div_lt_of_lt_mul
              calc n < 16 ^ (k + 1) := hn
                _ = 16 * 16 ^ k := by ring
            have := ih (n / 16) k hdiv
            omega

theorem hexString_length_le (n k : Nat) (hk : 0 < k) (hn : n < 16 ^ k) :
    (hexString n).length ≤ k := by
  unfold hexString
  split
  · simpa using hk
  · show (hexDigitsAux n n).length ≤ k
    exact hexDigitsAux_length_le n n k hn

theorem hexString_length_pos (n : Nat) : 0 < (hexString n).length := by
  unfold hexString
  split
  · decide
  · rename_i h
    show 0 < (hexDigitsAux n n).length
    cases n with
    | zero => exact absurd rfl h
    | succ n0 => simp [hexDigitsAux, h]

/-! ## Connection-map key lemmas -/

theorem lookupKey_eq_none_iff {α : Type} (m : List (String × α)) (k : String) :
    lookupKey m k = none ↔ k ∉ m.map Prod.fst := by
  induction m with
  | nil => simp [lookupKey]
  | cons kv rest ih =>
      obtain ⟨k0, v⟩ := kv
      by_cases h : k0 = k
      · simp [lookupKey, h]
      · simp [lookupKey, h, ih, Ne.symm h]

theorem insertKey_map_fst {α : Type} (m : List (String × α)) (k : String) (v : α) :
    (insertKey m k v).map Prod.fst =
      if k ∈ m.map Prod.fst then m.map Prod.fst else m.map Prod.fst ++ [k] := by
  induction m with
  | nil => simp [insertKey]
  | cons kv rest ih =>
      obtain ⟨k0, v0⟩ := kv
      by_cases h : k0 = k
      · simp [insertKey, h]
      · simp only [insertKey, if_neg h, List.map_cons, ih, List.mem_cons]
        have : ¬k = k0 := fun he => h he.symm
        split_ifs with h1 h2 h3 <;> simp_all

theorem insertKey_map_fst_nodup {α : Type} (m : List (String × α)) (k : String)
    (v : α) (h : (m.map Prod.fst).Nodup) :
    ((insertKey m k v).map Prod.fst).Nodup := by
  rw [insertKey_map_fst]
  split_ifs with h1
  · exact h
  · rw [List.nodup_append]
    refine ⟨h, List.nodup_singleton k, ?_⟩
    intro a ha hb
    simp only [List.mem_singleton] at hb
    subst hb
    exact h1 ha

theorem lookupKey_removeKey_self {α : Type} (m : List (String × α)) (k : String)
    (h : (m.map Prod.fst).Nodup) : lookupKey (removeKey m k) k = none := by
  induction m with
  | nil => rfl
  | cons kv rest ih =>
      obtain ⟨k0, v⟩ := kv
      simp only [List.map_cons, List.nodup_cons] at h
      by_cases h0 : k0 = k
      · subst h0
        simp only [removeKey, if_pos rfl]
        exact (lookupKey_eq_none_iff rest k0).mpr h.1
      · simp [removeKey, lookupKey, h0, ih h.2]

/-! ## Claim C1 -/

/-- A transfer record already in the terminal state `Completed`. -/
def sampleTransferC1 : FileTransfer :=
  { id := "t1", sender_id := "user-a", recipient_id := "user-b",
    sender_ip := some "192.168.1.10", recipient_ip := some "192.168.1.11",
    file_name := "a.bin", file_size := 4, source_path := some "/tmp/a.bin",
    destination_path := none, status := TransferStatus.Completed,
    bytes_transferred := 4, timestamp := 0, error := none }

/-- Claim C1 is false on the code: `accept_transfer` applied to a transfer
whose status is the terminal state `Completed` changes its record, setting the
status to `InProgress` (and the destination path); there is no terminal-state
guard in accept_transfer, reject_transfer, cancel_transfer, or the
chunk-progress updates. -/
theorem c1_terminal_not_immutable_counterexample :
    sampleTransferC1.status = TransferStatus.Completed ∧
    (lookupKey (accept_transfer [("t1", sampleTransferC1)] "t1" "/tmp/b.bin").1
        "t1").map FileTransfer.status = some TransferStatus.InProgress ∧
    TransferStatus.InProgress ≠ TransferStatus.Completed := by
  refine ⟨rfl, rfl, by decide⟩

/-- Claim C1 (amended): the transfer-record operations perform no
terminal-state check.  On any transfer present in the map, whatever its status
(terminal included), `accept_transfer` sets the status to `InProgress` and the
destination path to the given save path, `reject_transfer` sets the status to
`Rejected`, `cancel_transfer` sets it to `Cancelled`, and a chunk-progress
update overwrites `bytes_transferred` with the running total (setting the
status to `Completed` once the total reaches `file_size`); every other field is
left unchanged. -/
theorem c1_transfer_ops_update_regardless_of_status (m : TransferMap)
    (tid save : String) (t : FileTransfer) (total : Nat)
    (h : lookupKey m tid = some t) :
    lookupKey (accept_transfer m tid save).1 tid =
      some { t with
        status := TransferStatus.InProgress
        destination_path := some save } ∧
    lookupKey (reject_transfer m tid).1 tid =
      some { t with status := TransferStatus.Rejected } ∧
    lookupKey (cancel_transfer m tid).1 tid =
      some { t with status := TransferStatus.Cancelled } ∧
    lookupKey (chunkProgressUpdate m tid total) tid =
      some (applyChunkProgress total t) := by
  refine ⟨?_, ?_, ?_, ?_⟩ <;>
    simp [accept_transfer, reject_transfer, cancel_transfer, chunkProgressUpdate, h,
      lookupKey_updateKey_self]

/-- Witness for the amended C1 theorem at a concrete one-entry transfer map. -/
theorem c1_transfer_ops_update_witness :
    lookupKey [("t1", sampleTransferC1)] "t1" = some sampleTransferC1 ∧
    (lookupKey (accept_transfer [("t1", sampleTransferC1)] "t1" "/tmp/b.bin").1
        "t1" =
      some { sampleTransferC1 with
        status := TransferStatus.InProgress
        destination_path := some "/tmp/b.bin" } ∧
    lookupKey (reject_transfer [("t1", sampleTransferC1)] "t1").1 "t1" =
      some { sampleTransferC1 with status := TransferStatus.Rejected } ∧
    lookupKey (cancel_transfer [("t1", sampleTransferC1)] "t1").1 "t1" =
      some { sampleTransferC1 with status := TransferStatus.Cancelled } ∧
    lookupKey (chunkProgressUpdate [("t1", sampleTransferC1)] "t1" 2) "t1" =
      some (applyChunkProgress 2 sampleTransferC1)) :=
  ⟨by decide,
   c1_transfer_ops_update_regardless_of_status [("t1", sampleTransferC1)] "t1"
     "/tmp/b.bin" sampleTransferC1 2 (by decide)⟩

/-! ## Claim C2 -/

/-- Completion lemma for the chunk loop: a nonempty run of nonzero chunks whose
total reaches `file_size` leaves the transfer `Completed` with
`bytes_transferred` equal to the grand total. -/
theorem runChunkLoop_completes (tid : String) (cs : List Nat) :
    ∀ (m : TransferMap) (t : FileTransfer) (sent : Nat),
      lookupKey m tid = some t →
      cs ≠ [] →
      (∀ c ∈ cs, c ≠ 0) →
      t.file_size ≤ sent + cs.sum →
      ∃ t', lookupKey (runChunkLoop m tid sent cs) tid = some t' ∧
        t'.status = TransferStatus.Completed ∧
        t'.bytes_transferred = sent + cs.sum ∧
        t'.file_size = t.file_size := by
  induction cs with
  | nil => intro m t sent _ hne _ _; exact absurd rfl hne
  | cons c cs ih =>
      intro m t sent hlook _ hnz hsum
      have hc : c ≠ 0 := hnz c (List.mem_cons_self c cs)
      simp only [runChunkLoop, if_neg hc]
      have hlook' :
          lookupKey (chunkProgressUpdate m tid (sent + c)) tid =
            some (applyChunkProgress (sent + c) t) := by
        rw [chunkProgressUpdate, lookupKey_updateKey_self, hlook]
        rfl
      have hfs := applyChunkProgress_file_size (sent + c) t
      simp only [List.sum_cons] at hsum
      by_cases hcs : cs = []
      · subst hcs
        simp only [List.sum_nil, Nat.add_zero] at hsum
        simp only [runChunkLoop, List.sum_cons, List.sum_nil]
        refine ⟨applyChunkProgress (sent + c) t, hlook', ?_, ?_, hfs⟩
        · exact applyChunkProgress_status_of_le (sent + c) t (by omega)
        · rw [applyChunkProgress_bytes]
          omega
      · obtain ⟨t', h1, h2, h3, h4⟩ :=
          ih (chunkProgressUpdate m tid (sent + c)) (applyChunkProgress (sent + c) t)
            (sent + c) hlook' hcs (fun x hx => hnz x (List.mem_cons_of_mem c hx))
            (by rw [hfs]; omega)
        refine ⟨t', h1, h2, ?_, by rw [h4, hfs]⟩
        rw [h3]
        simp only [List.sum_cons]
        omega

/-- A transfer of recorded size 1 byte, in progress with nothing transferred. -/
def sampleTransferC2 : FileTransfer :=
  { id := "t2c", sender_id := "user-a", recipient_id := "user-b",
    sender_ip := some "192.168.1.10", recipient_ip := some "192.168.1.11",
    file_name := "tiny.bin", file_size := 1, source_path := some "/tmp/tiny.bin",
    destination_path := some "/tmp/out.bin", status := TransferStatus.InProgress,
    bytes_transferred := 0, timestamp := 0, error := none }

/-- Claim C2 is false on the code: the receiving loop delivered a single 2-byte
chunk for a transfer whose recorded file_size is 1 sets bytes_transferred to 2,
which exceeds file_size, and marks the transfer Completed with
bytes_transferred different from file_size (the code neither caps the counter
nor compares with equality). -/
theorem c2_bytes_exceed_counterexample :
    (lookupKey (runChunkLoop [("t2c", sampleTransferC2)] "t2c" 0 [2]) "t2c").map
        FileTransfer.bytes_transferred = some 2 ∧
    (lookupKey (runChunkLoop [("t2c", sampleTransferC2)] "t2c" 0 [2]) "t2c").map
        FileTransfer.file_size = some 1 ∧
    (lookupKey (runChunkLoop [("t2c", sampleTransferC2)] "t2c" 0 [2]) "t2c").map
        FileTransfer.status = some TransferStatus.Completed ∧
    ¬ (2 : Nat) ≤ 1 := by
  decide

/-- Claim C2 (amended): along the chunk-update loop the code keeps
`bytes_transferred` equal to the cumulative bytes processed without capping it,
so it stays within `file_size` only when the chunks delivered total at most
`file_size`.  Under that proviso, every state the loop produces satisfies
`bytes_transferred ≤ file_size` and `status = Completed` implies
`bytes_transferred = file_size`; and when a nonempty run of nonzero chunks
totals exactly `file_size`, the loop ends with status `Completed` and
`bytes_transferred = file_size`. -/
theorem c2_chunk_loop_progress_invariant (m : TransferMap) (tid : String)
    (t : FileTransfer) (cs : List Nat)
    (hlook : lookupKey m tid = some t)
    (hbytes : t.bytes_transferred = 0)
    (hstat : t.status ≠ TransferStatus.Completed)
    (hsum : cs.sum ≤ t.file_size) :
    ∃ t', lookupKey (runChunkLoop m tid 0 cs) tid = some t' ∧
      t'.file_size = t.file_size ∧
      t'.bytes_transferred ≤ t'.file_size ∧
      (t'.status = TransferStatus.Completed →
        t'.bytes_transferred = t'.file_size) ∧
      (cs ≠ [] → (∀ c ∈ cs, c ≠ 0) → cs.sum = t.file_size →
        t'.status = TransferStatus.Completed ∧
        t'.bytes_transferred = t'.file_size) := by
  obtain ⟨t', h1, h2, h3, h4⟩ :=
    runChunkLoop_invariant tid cs m t 0 hlook hbytes
      (fun hcomp => absurd hcomp hstat) (by omega)
  refine ⟨t', h1, h2, h3, h4, ?_⟩
  intro hne hnz hsumeq
  obtain ⟨t2, g1, g2, g3, g4⟩ :=
    runChunkLoop_completes tid cs m t 0 hlook hne hnz (by omega)
  rw [h1] at g1
  obtain rfl : t' = t2 := by
    injection g1
  refine ⟨g2, ?_⟩
  rw [g3, Nat.zero_add, hsumeq, ← g4]

/-- A transfer of recorded size 3 bytes, in progress with nothing
transferred. -/
def sampleTransferC2w : FileTransfer :=
  { id := "t2", sender_id := "user-a", recipient_id := "user-b",
    sender_ip := some "192.168.1.10", recipient_ip := some "192.168.1.11",
    file_name := "b.bin", file_size := 3, source_path := some "/tmp/b.bin",
    destination_path := some "/tmp/out2.bin", status := TransferStatus.InProgress,
    bytes_transferred := 0, timestamp := 0, error := none }

/-- Witness for the amended C2 theorem: a 3-byte transfer streamed as chunks of
2 and 1 bytes. -/
theorem c2_chunk_loop_progress_witness :
    lookupKey [("t2", sampleTransferC2w)] "t2" = some sampleTransferC2w ∧
    sampleTransferC2w.bytes_transferred = 0 ∧
    sampleTransferC2w.status ≠ TransferStatus.Completed ∧
    [2, 1].sum ≤ sampleTransferC2w.file_size ∧
    (∃ t', lookupKey (runChunkLoop [("t2", sampleTransferC2w)] "t2" 0 [2, 1])
        "t2" = some t' ∧
      t'.file_size = sampleTransferC2w.file_size ∧
      t'.bytes_transferred ≤ t'.file_size ∧
      (t'.status = TransferStatus.Completed →
        t'.bytes_transferred = t'.file_size) ∧
      ([2, 1] ≠ ([] : List Nat) → (∀ c ∈ [2, 1], c ≠ 0) →
        [2, 1].sum = sampleTransferC2w.file_size →
        t'.status = TransferStatus.Completed ∧
        t'.bytes_transferred = t'.file_size)) :=
  ⟨by decide, by decide, by decide, by decide,
   c2_chunk_loop_progress_invariant [("t2", sampleTransferC2w)] "t2"
     sampleTransferC2w [2, 1] (by decide) (by decide) (by decide) (by decide)⟩

/-! ## Claim C3 -/

/-- Claim C3: calling `start_discovery` while the running flag is set returns
the `DiscoveryError` and leaves the discovery state unchanged, whatever the
environment outcomes; calling `stop_discovery` while not running returns
success and also leaves the state unchanged. -/
theorem c3_start_stop_lifecycle (env : DiscoveryEnv) (s : DiscoveryState) :
    (s.is_running = true →
      start_discovery env s =
        (s, some (AppError.DiscoveryError "Discovery already running"))) ∧
    (s.is_running = false → stop_discovery s = (s, none)) := by
  constructor
  · intro h
    simp [start_discovery, h]
  · intro h
    simp [stop_discovery, h]

/-- A discovered peer entry for the sample states. -/
def sampleDiscoveredUser : User :=
  { id := "user-b", name := "beta", ip := "192.168.1.11", last_seen := 100 }

/-- A discovery state with the running flag set. -/
def sampleDiscoveryRunning : DiscoveryState :=
  { peers := [("user-b", sampleDiscoveredUser)],
    daemon := true, is_running := true, stop_tx := true,
    service_registered := true }

/-- A discovery state with the running flag clear. -/
def sampleDiscoveryStopped : DiscoveryState :=
  { peers := [], daemon := false, is_running := false, stop_tx := false,
    service_registered := false }

/-- Witness for C3 at concrete running and stopped states. -/
theorem c3_start_stop_lifecycle_witness :
    sampleDiscoveryRunning.is_running = true ∧
    sampleDiscoveryStopped.is_running = false ∧
    start_discovery ⟨true, true, true, true⟩ sampleDiscoveryRunning =
      (sampleDiscoveryRunning,
        some (AppError.DiscoveryError "Discovery already running")) ∧
    stop_discovery sampleDiscoveryStopped = (sampleDiscoveryStopped, none) :=
  ⟨by decide, by decide,
   (c3_start_stop_lifecycle ⟨true, true, true, true⟩ sampleDiscoveryRunning).1
     (by decide),
   (c3_start_stop_lifecycle ⟨true, true, true, true⟩ sampleDiscoveryStopped).2
     (by decide)⟩

/-! ## Claim C4 -/

theorem dialFreshConnection_keys_nodup (env : ConnEnv) (now : Nat)
    (m : ConnectionMap) (pid ip : String) (port : Nat)
    (h : (m.map Prod.fst).Nodup) :
    (((dialFreshConnection env now m pid ip port).1).map Prod.fst).Nodup := by
  unfold dialFreshConnection
  by_cases ha : env.addr_ok = false
  · simpa [ha] using h
  · cases hd : env.dial with
    | success =>
        simp only [if_neg ha, hd]
        exact insertKey_map_fst_nodup m pid _ h
    | failure e => simpa [ha, hd] using h
    | timeout => simpa [ha, hd] using h

theorem get_or_create_keys_nodup (env : ConnEnv) (now : Nat) (m : ConnectionMap)
    (pid ip : String) (port : Nat) (h : (m.map Prod.fst).Nodup) :
    (((get_or_create_connection env now m pid ip port).1).map Prod.fst).Nodup := by
  unfold get_or_create_connection
  cases hl : lookupKey m pid with
  | none =>
      simp only [hl]
      exact dialFreshConnection_keys_nodup env now m pid ip port h
  | some c =>
      by_cases hc : (c.is_active && !connectionIsIdle now c) = true
      · simpa [hl, hc] using h
      · simp only [hl, Bool.not_eq_true] at hc
        simp only [hl, hc]
        exact dialFreshConnection_keys_nodup env now m pid ip port h

theorem get_or_create_of_not_reusable (env : ConnEnv) (now : Nat)
    (m : ConnectionMap) (pid ip : String) (port : Nat)
    (hr : reusableConnection now m pid = false) :
    get_or_create_connection env now m pid ip port =
      dialFreshConnection env now m pid ip port := by
  unfold get_or_create_connection
  cases hl : lookupKey m pid with
  | none => simp only [hl]
  | some c =>
      have hc : (c.is_active && !connectionIsIdle now c) = false := by
        simpa [reusableConnection, hl] using hr
      simp only [hl, hc]
      simp

/-- Claim C4: when the reuse test fails and the dial fails or times out,
`get_or_create_connection` returns the networking error and leaves the
connection map unchanged; and when the connection was obtained but the framed
write or flush fails or times out, `send_message` marks that connection
inactive, removes its entry from the map (so no entry for the peer remains,
given unique keys), and returns the send-failed networking error. -/
theorem c4_connection_error_handling (env : ConnEnv) (now : Nat)
    (m : ConnectionMap) (pid : String) (msg : Message) (ip : String)
    (port : Nat) :
    (∀ e, reusableConnection now m pid = false → env.addr_ok = true →
      env.dial = DialOutcome.failure e →
      get_or_create_connection env now m pid ip port =
        (m, .error (.NetworkError ("Connection failed: " ++ e)))) ∧
    (reusableConnection now m pid = false → env.addr_ok = true →
      env.dial = DialOutcome.timeout →
      get_or_create_connection env now m pid ip port =
        (m, .error (.NetworkError "Connection timeout"))) ∧
    (∀ m1 c e, get_or_create_connection env now m pid ip port = (m1, .ok c) →
      env.write = WriteOutcome.failure e →
      send_message env now m pid msg ip port =
        (removeKey (updateKey m1 pid fun c0 => { c0 with is_active := false }) pid,
          .error (.NetworkError ("Message send failed: " ++ e))) ∧
      ((m.map Prod.fst).Nodup →
        lookupKey (send_message env now m pid msg ip port).1 pid = none)) ∧
    (∀ m1 c, get_or_create_connection env now m pid ip port = (m1, .ok c) →
      env.write = WriteOutcome.timeout →
      send_message env now m pid msg ip port =
        (removeKey (updateKey m1 pid fun c0 => { c0 with is_active := false }) pid,
          .error (.NetworkError "Message send timeout")) ∧
      ((m.map Prod.fst).Nodup →
        lookupKey (send_message env now m pid msg ip port).1 pid = none)) := by
  refine ⟨?_, ?_, ?_, ?_⟩
  · intro e hr ha hd
    rw [get_or_create_of_not_reusable env now m pid ip port hr]
    unfold dialFreshConnection
    simp [ha, hd]
  · intro hr ha hd
    rw [get_or_create_of_not_reusable env now m pid ip port hr]
    unfold dialFreshConnection
    simp [ha, hd]
  · intro m1 c e hg hw
    have heq : send_message env now m pid msg ip port =
        (removeKey (updateKey m1 pid fun c0 => { c0 with is_active := false }) pid,
          .error (.NetworkError ("Message send failed: " ++ e))) := by
      unfold send_message
      rw [hg, hw]
    refine ⟨heq, ?_⟩
    intro hnd
    have hm1 : (m1.map Prod.fst).Nodup := by
      have hh := get_or_create_keys_nodup env now m pid ip port hnd
      rw [hg] at hh
      exact hh
    rw [heq]
    apply lookupKey_removeKey_self
    rw [updateKey_map_fst]
    exact hm1
  · intro m1 c hg hw
    have heq : send_message env now m pid msg ip port =
        (removeKey (updateKey m1 pid fun c0 => { c0 with is_active := false }) pid,
          .error (.NetworkError "Message send timeout")) := by
      unfold send_message
      rw [hg, hw]
    refine ⟨heq, ?_⟩
    intro hnd
    have hm1 : (m1.map Prod.fst).Nodup := by
      have hh := get_or_create_keys_nodup env now m pid ip port hnd
      rw [hg] at hh
      exact hh
    rw [heq]
    apply lookupKey_removeKey_self
    rw [updateKey_map_fst]
    exact hm1

/-- A message used for the connection-manager sends. -/
def sampleNetMessage : Message :=
  { id := "m-net", sender_id := "user-a", recipient_id := "user-b",
    content := "hi", timestamp := 7, read := false }

/-- The connection created by a successful dial to user-b at instant 0. -/
def sampleDialConn : PeerConnection :=
  { peer_id := "user-b", peer_addr := "192.168.1.11" ++ ":" ++ toString 8765,
    last_activity := 0, is_active := true }

/-- Witness for C4: failing and timing-out dials on an empty map, and a write
failure and write timeout right after a successful dial. -/
theorem c4_connection_error_handling_witness :
    (get_or_create_connection ⟨true, DialOutcome.failure "refused",
        WriteOutcome.success⟩ 0 [] "user-b" "192.168.1.11" 8765 =
      ([], .error (.NetworkError ("Connection failed: " ++ "refused")))) ∧
    (get_or_create_connection ⟨true, DialOutcome.timeout, WriteOutcome.success⟩
        0 [] "user-b" "192.168.1.11" 8765 =
      ([], .error (.NetworkError "Connection timeout"))) ∧
    (send_message ⟨true, DialOutcome.success, WriteOutcome.failure "broken pipe"⟩
        0 [] "user-b" sampleNetMessage "192.168.1.11" 8765 =
      (removeKey (updateKey [("user-b", sampleDialConn)] "user-b"
          fun c0 => { c0 with is_active := false }) "user-b",
        .error (.NetworkError ("Message send failed: " ++ "broken pipe")))) ∧
    lookupKey (send_message ⟨true, DialOutcome.success,
        WriteOutcome.failure "broken pipe"⟩
        0 [] "user-b" sampleNetMessage "192.168.1.11" 8765).1 "user-b" = none ∧
    (send_message ⟨true, DialOutcome.success, WriteOutcome.timeout⟩
        0 [] "user-b" sampleNetMessage "192.168.1.11" 8765).2 =
      .error (.NetworkError "Message send timeout") := by
  refine ⟨?_, ?_, ?_, ?_, ?_⟩
  · exact (c4_connection_error_handling ⟨true, DialOutcome.failure "refused",
      WriteOutcome.success⟩ 0 [] "user-b" sampleNetMessage "192.168.1.11"
      8765).1 "refused" (by decide) (by decide) (by decide)
  · exact (c4_connection_error_handling ⟨true, DialOutcome.timeout,
      WriteOutcome.success⟩ 0 [] "user-b" sampleNetMessage "192.168.1.11"
      8765).2.1 (by decide) (by decide) (by decide)
  · exact ((c4_connection_error_handling ⟨true, DialOutcome.success,
      WriteOutcome.failure "broken pipe"⟩ 0 [] "user-b" sampleNetMessage
      "192.168.1.11" 8765).2.2.1 [("user-b", sampleDialConn)] sampleDialConn
      "broken pipe" rfl (by decide)).1
  · exact ((c4_connection_error_handling ⟨true, DialOutcome.success,
      WriteOutcome.failure "broken pipe"⟩ 0 [] "user-b" sampleNetMessage
      "192.168.1.11" 8765).2.2.1 [("user-b", sampleDialConn)] sampleDialConn
      "broken pipe" rfl (by decide)).2 (by decide)
  · rw [((c4_connection_error_handling ⟨true, DialOutcome.success,
      WriteOutcome.timeout⟩ 0 [] "user-b" sampleNetMessage
      "192.168.1.11" 8765).2.2.2 [("user-b", sampleDialConn)] sampleDialConn
      rfl (by decide)).1]

/-! ## Claim C5 -/

/-- Claim C5: both send paths append the outbound message to the local-user-id
bucket of the store before the network attempt, so the resulting store always
equals the stored-first store and contains the message in that bucket; when the
network send fails, the command returns the error and emits no `message_sent`
event while the local copy remains; on success the `message_sent` event is
emitted. -/
theorem c5_store_before_send (local_id : String) (s : MessageStore)
    (msg : Message) (net : Except AppError Unit) :
    (send_message_command local_id s msg net).1 =
      (store_sent_message local_id s msg).1 ∧
    (send_message_with_peer_ip local_id s msg net).1 =
      pushBucket s local_id msg ∧
    msg ∈ getBucketD (send_message_command local_id s msg net).1 local_id ∧
    (∀ e, net = .error e →
      (send_message_command local_id s msg net).2.1 = [] ∧
      (send_message_command local_id s msg net).2.2 = .error e ∧
      (send_message_with_peer_ip local_id s msg net).2 = .error e) ∧
    (∀ u, net = .ok u →
      (send_message_command local_id s msg net).2.1 =
        [UIEvent.message_sent msg]) := by
  refine ⟨?_, ?_, ?_, ?_, ?_⟩
  · cases net <;> rfl
  · cases net <;> rfl
  · have h1 : (send_message_command local_id s msg net).1 =
        pushBucket s local_id msg := by
      cases net <;> rfl
    rw [h1, getBucketD_pushBucket_self]
    exact List.mem_append_right _ (by simp)
  · intro e he
    subst he
    exact ⟨rfl, rfl, rfl⟩
  · intro u hu
    subst hu
    rfl

/-- The outbound message of the C5 witness. -/
def sampleOutMsg : Message :=
  { id := "m-out", sender_id := "user-a", recipient_id := "user-b",
    content := "hello", timestamp := 9, read := false }

/-- Witness for C5: a failing network send on an empty store keeps the local
copy, returns the error, and emits nothing. -/
theorem c5_store_before_send_witness :
    (send_message_command "user-a" [] sampleOutMsg
        (.error (.NetworkError "Connection timeout"))).1 =
      (store_sent_message "user-a" [] sampleOutMsg).1 ∧
    sampleOutMsg ∈ getBucketD (send_message_command "user-a" [] sampleOutMsg
        (.error (.NetworkError "Connection timeout"))).1 "user-a" ∧
    (send_message_command "user-a" [] sampleOutMsg
        (.error (.NetworkError "Connection timeout"))).2.1 = [] ∧
    (send_message_command "user-a" [] sampleOutMsg
        (.error (.NetworkError "Connection timeout"))).2.2 =
      .error (.NetworkError "Connection timeout") :=
  ⟨(c5_store_before_send "user-a" [] sampleOutMsg
      (.error (.NetworkError "Connection timeout"))).1,
   (c5_store_before_send "user-a" [] sampleOutMsg
      (.error (.NetworkError "Connection timeout"))).2.2.1,
   ((c5_store_before_send "user-a" [] sampleOutMsg
      (.error (.NetworkError "Connection timeout"))).2.2.2.1 _ rfl).1,
   ((c5_store_before_send "user-a" [] sampleOutMsg
      (.error (.NetworkError "Connection timeout"))).2.2.2.1 _ rfl).2.1⟩

/-! ## Claim C6 -/

/-- Claim C6: `get_messages_for_peer` returns exactly the concatenation of the
outbound stream (local-user-id bucket entries addressed to the peer) and the
inbound stream (peer bucket entries addressed to the local user) up to the
reordering of a sort, and the result is sorted by timestamp ascending. -/
theorem c6_get_messages_for_peer_spec (local_id : String) (s : MessageStore)
    (peer_id : String) :
    (get_messages_for_peer local_id s peer_id).Perm
      (((getBucketD s local_id).filter fun msg =>
          decide (msg.recipient_id = peer_id)) ++
        ((getBucketD s peer_id).filter fun msg =>
          decide (msg.recipient_id = local_id))) ∧
    List.Sorted (fun a b => a.timestamp ≤ b.timestamp)
      (get_messages_for_peer local_id s peer_id) := by
  constructor
  · exact List.mergeSort_perm _ _
  · have h := @List.sorted_mergeSort Message
      (fun a b : Message => decide (a.timestamp ≤ b.timestamp))
      (fun a b c h1 h2 => by
        simp only [decide_eq_true_eq] at h1 h2 ⊢
        omega)
      (fun a b => by
        simp only [Bool.or_eq_true, decide_eq_true_eq]
        omega)
      (((getBucketD s local_id).filter fun msg =>
          decide (msg.recipient_id = peer_id)) ++
        ((getBucketD s peer_id).filter fun msg =>
          decide (msg.recipient_id = local_id)))
    exact h.imp fun hab => of_decide_eq_true hab

/-! ## Claim C7 -/

/-- A message already stored in the sender's bucket before the dispatch. -/
def samplePriorMsg : Message :=
  { id := "m0", sender_id := "user-bbbb2222", recipient_id := "user-aaaa1111",
    content := "earlier", timestamp := 1, read := false }

/-- The chat store before the dispatch: the sender bucket holds one message. -/
def sampleStoreC7 : MessageStore := [("user-bbbb2222", [samplePriorMsg])]

/-- An incoming message addressed to the local user. -/
def sampleIncomingMsg : Message :=
  { id := "m1", sender_id := "user-bbbb2222", recipient_id := "user-aaaa1111",
    content := "hello", timestamp := 5, read := false }

/-- An incoming message addressed to somebody else. -/
def sampleForeignMsg : Message :=
  { id := "m2", sender_id := "user-bbbb2222", recipient_id := "user-cccc3333",
    content := "not for us", timestamp := 6, read := false }

/-- Claim C7: the inbound dispatcher drops a mismatched recipient with success,
and on a matching recipient emits `message_received` — but appends nothing to
the message store: the store after the dispatch is exactly the store before it,
and the sender-id bucket still holds only the prior message (the
`ConnectionManager` of connection_manager.rs has no message store, although
lib.rs builds it with the chat manager's message storage). -/
theorem c7_dispatcher_emits_without_store_append :
    incoming_message_step "user-aaaa1111" sampleStoreC7 sampleIncomingMsg =
      (sampleStoreC7, [UIEvent.message_received sampleIncomingMsg], .ok ()) ∧
    getBucketD (incoming_message_step "user-aaaa1111" sampleStoreC7
        sampleIncomingMsg).1 sampleIncomingMsg.sender_id = [samplePriorMsg] ∧
    incoming_message_step "user-aaaa1111" sampleStoreC7 sampleForeignMsg =
      (sampleStoreC7, [], .ok ()) := by
  refine ⟨?_, ?_, ?_⟩ <;> rfl

/-! ## Claims C8 and C10 -/

theorem updateKey_congr {α : Type} (m : List (String × α)) (k : String)
    (f g : α → α) (h : ∀ v, f v = g v) : updateKey m k f = updateKey m k g := by
  induction m with
  | nil => rfl
  | cons kv rest ih =>
      obtain ⟨k0, v⟩ := kv
      by_cases h0 : k0 = k <;> simp [updateKey, h0, h, ih]

/-- The effect of `mark_messages_as_read` on the peer bucket: every entry
addressed to the local user gets read = true, every other entry is kept. -/
theorem getBucketD_mark_messages (local_id : String) (s : MessageStore)
    (peer_id : String) :
    getBucketD (mark_messages_as_read local_id s peer_id).1 peer_id =
      (getBucketD s peer_id).map
        (fun m => if m.recipient_id = local_id then { m with read := true }
          else m) := by
  simp only [mark_messages_as_read, getBucketD]
  rw [lookupKey_updateKey_self]
  cases hl : lookupKey s peer_id <;> simp [hl]

/-- Claim C8: `mark_messages_as_read` always returns success, leaves the store
alone when the peer bucket is absent, is idempotent, and rewrites the peer
bucket by setting read = true exactly on the entries addressed to the local
user. -/
theorem c8_mark_read_spec (local_id : String) (s : MessageStore)
    (peer_id : String) :
    (mark_messages_as_read local_id s peer_id).2 = .ok () ∧
    (lookupKey s peer_id = none →
      (mark_messages_as_read local_id s peer_id).1 = s) ∧
    mark_messages_as_read local_id
        (mark_messages_as_read local_id s peer_id).1 peer_id =
      mark_messages_as_read local_id s peer_id ∧
    getBucketD (mark_messages_as_read local_id s peer_id).1 peer_id =
      (getBucketD s peer_id).map
        (fun m => if m.recipient_id = local_id then { m with read := true }
          else m) := by
  refine ⟨rfl, ?_, ?_, getBucketD_mark_messages local_id s peer_id⟩
  · intro h
    simp only [mark_messages_as_read]
    rw [updateKey_of_lookupKey_none _ _ _ h]
  · have hff : ∀ l : List Message,
        List.map (fun m =>
            if m.recipient_id = local_id then { m with read := true } else m)
          (List.map (fun m =>
            if m.recipient_id = local_id then { m with read := true } else m) l) =
        List.map (fun m =>
            if m.recipient_id = local_id then { m with read := true } else m) l := by
      intro l
      rw [List.map_map]
      congr 1
      funext m
      by_cases h : m.recipient_id = local_id <;> simp [h]
    simp only [mark_messages_as_read]
    rw [updateKey_updateKey]
    exact congrArg (fun m0 => (m0, (Except.ok () : Except AppError Unit)))
      (updateKey_congr s peer_id _ _ hff)

/-- An inbound message from user-b to user-a, unread. -/
def sampleInboundMsg : Message :=
  { id := "m3", sender_id := "user-b", recipient_id := "user-a",
    content := "ping", timestamp := 2, read := false }

/-- A message in the same bucket that is not addressed to user-a. -/
def sampleOtherMsg : Message :=
  { id := "m4", sender_id := "user-a", recipient_id := "user-b",
    content := "pong", timestamp := 3, read := false }

/-- The store of the C8 witness: one bucket for user-b with both messages. -/
def sampleStoreC8 : MessageStore :=
  [("user-b", [sampleInboundMsg, sampleOtherMsg])]

/-- Witness for C8 at a concrete store, plus the missing-bucket case on the
empty store. -/
theorem c8_mark_read_witness :
    (mark_messages_as_read "user-a" sampleStoreC8 "user-b").2 = .ok () ∧
    mark_messages_as_read "user-a"
        (mark_messages_as_read "user-a" sampleStoreC8 "user-b").1 "user-b" =
      mark_messages_as_read "user-a" sampleStoreC8 "user-b" ∧
    getBucketD (mark_messages_as_read "user-a" sampleStoreC8 "user-b").1
        "user-b" = [{ sampleInboundMsg with read := true }, sampleOtherMsg] ∧
    lookupKey ([] : MessageStore) "user-b" = none ∧
    (mark_messages_as_read "user-a" ([] : MessageStore) "user-b").1 = [] :=
  ⟨(c8_mark_read_spec "user-a" sampleStoreC8 "user-b").1,
   (c8_mark_read_spec "user-a" sampleStoreC8 "user-b").2.2.1,
   by
     rw [(c8_mark_read_spec "user-a" sampleStoreC8 "user-b").2.2.2]
     rfl,
   rfl,
   (c8_mark_read_spec "user-a" ([] : MessageStore) "user-b").2.1 rfl⟩

/-- Claim C10 (frame property of `mark_messages_as_read`): the bucket keys are
unchanged, every bucket other than the peer bucket is unchanged, and the peer
bucket keeps its length and order with every field except read preserved
entry by entry; entries not addressed to the local user are wholly unchanged,
and entries addressed to the local user end with read = true. -/
theorem c10_mark_read_frame (local_id : String) (s : MessageStore)
    (peer_id : String) :
    ((mark_messages_as_read local_id s peer_id).1.map Prod.fst =
      s.map Prod.fst) ∧
    (∀ k, k ≠ peer_id →
      lookupKey (mark_messages_as_read local_id s peer_id).1 k =
        lookupKey s k) ∧
    List.Forall₂
      (fun m2 m => m2.id = m.id ∧ m2.sender_id = m.sender_id ∧
        m2.recipient_id = m.recipient_id ∧ m2.content = m.content ∧
        m2.timestamp = m.timestamp ∧
        (m.recipient_id ≠ local_id → m2 = m) ∧
        (m.recipient_id = local_id → m2.read = true))
      (getBucketD (mark_messages_as_read local_id s peer_id).1 peer_id)
      (getBucketD s peer_id) := by
  refine ⟨?_, ?_, ?_⟩
  · simp only [mark_messages_as_read]
    exact updateKey_map_fst s peer_id _
  · intro k hk
    simp only [mark_messages_as_read]
    exact lookupKey_updateKey_ne s peer_id k _ hk
  · rw [getBucketD_mark_messages]
    rw [List.forall₂_map_left_iff, List.forall₂_same]
    intro m _
    by_cases h : m.recipient_id = local_id <;> simp [h]

/-- The store of the C10 witness. -/
def sampleStoreC10 : MessageStore :=
  [("user-b", [sampleInboundMsg, sampleOtherMsg]),
   ("user-x", [samplePriorMsg])]

/-- Witness for C10 at a concrete two-bucket store. -/
theorem c10_mark_read_frame_witness :
    ((mark_messages_as_read "user-a" sampleStoreC10 "user-b").1.map Prod.fst =
      sampleStoreC10.map Prod.fst) ∧
    lookupKey (mark_messages_as_read "user-a" sampleStoreC10 "user-b").1
        "user-x" = lookupKey sampleStoreC10 "user-x" ∧
    List.Forall₂
      (fun m2 m => m2.id = m.id ∧ m2.sender_id = m.sender_id ∧
        m2.recipient_id = m.recipient_id ∧ m2.content = m.content ∧
        m2.timestamp = m.timestamp ∧
        (m.recipient_id ≠ "user-a" → m2 = m) ∧
        (m.recipient_id = "user-a" → m2.read = true))
      (getBucketD (mark_messages_as_read "user-a" sampleStoreC10 "user-b").1
        "user-b")
      (getBucketD sampleStoreC10 "user-b") :=
  ⟨(c10_mark_read_frame "user-a" sampleStoreC10 "user-b").1,
   (c10_mark_read_frame "user-a" sampleStoreC10 "user-b").2.1 "user-x"
     (by decide),
   (c10_mark_read_frame "user-a" sampleStoreC10 "user-b").2.2⟩

/-! ## Claim C9 -/

/-- Claim C9: `generate_user_id` is a (deterministic) function of the hostname
bytes alone; it hashes the hostname with std's `DefaultHasher`, keeps the low
32 bits of the 64-bit hash, and renders the id as `user-` followed by at most
eight (and at least one) lowercase hexadecimal digits of that 32-bit value, so
the same hostname yields the same id on every invocation. -/
theorem c9_generate_user_id_spec (host : List Nat) :
    generate_user_id host =
      "user-" ++ hexString (defaultHasherFinish (host ++ [255]) % 4294967296) ∧
    defaultHasherFinish (host ++ [255]) % 4294967296 < 4294967296 ∧
    (hexString (defaultHasherFinish (host ++ [255]) % 4294967296)).length ≤ 8 ∧
    0 < (hexString (defaultHasherFinish (host ++ [255]) % 4294967296)).length ∧
    (∀ host2, host2 = host →
      generate_user_id host2 = generate_user_id host) := by
  have hmask :=
    Nat.and_pow_two_sub_one_eq_mod (defaultHasherFinish (host ++ [255])) 32
  norm_num at hmask
  refine ⟨?_, ?_, ?_, ?_, ?_⟩
  · simp only [generate_user_id, hashStrBytes]
    rw [hmask]
  · exact Nat.mod_lt _ (by norm_num)
  · apply hexString_length_le _ 8 (by norm_num)
    calc defaultHasherFinish (host ++ [255]) % 4294967296 < 4294967296 :=
          Nat.mod_lt _ (by norm_num)
      _ = 16 ^ 8 := by norm_num
  · exact hexString_length_pos _
  · intro host2 h
    rw [h]

/-- Witness for C9 at the hostname `alpha` (UTF-8 bytes 97 108 112 104 97),
whose id evaluates concretely. -/
theorem c9_generate_user_id_witness :
    generate_user_id [97, 108, 112, 104, 97] =
      "user-" ++ hexString
        (defaultHasherFinish ([97, 108, 112, 104, 97] ++ [255]) % 4294967296) ∧
    generate_user_id [97, 108, 112, 104, 97] = "user-317bd39a" ∧
    (hexString (defaultHasherFinish ([97, 108, 112, 104, 97] ++ [255]) %
        4294967296)).length ≤ 8 ∧
    generate_user_id [97, 108, 112, 104, 97] =
      generate_user_id [97, 108, 112, 104, 97] :=
  ⟨(c9_generate_user_id_spec [97, 108, 112, 104, 97]).1,
   rfl,
   (c9_generate_user_id_spec [97, 108, 112, 104, 97]).2.2.1,
   (c9_generate_user_id_spec [97, 108, 112, 104, 97]).2.2.2.2
     [97, 108, 112, 104, 97] rfl⟩
